import Mathlib

/-!
Shallow embedding of the request instrumentation layer of
src/flask-app/app.py: the with_metrics decorator (its inner function
wrapped), the simulation controls read from the query string
(delay and fail), the status resolution for normal returns and raised
exceptions, the metric recording step in the finally block, and the
get_item handler used by the concrete scenarios.

Time is modelled by an explicit rational-valued clock threaded through the
request: time.sleep advances it, the handler call advances it by a
parameter tHandler, and time.time() reads it. Metric label values are
strings, as in the source (code = str(status)).
-/

namespace FlaskApp

/-- Label tuple (method, route, code) used by the three-label metric families. -/
abbrev Key3 := String × String × String

/-- Label tuple (method, route) used by the two-label metric families. -/
abbrev Key2 := String × String

/-- SLOW_THRESHOLD = 5.0 (app.py line 22): seconds at or above which a request
counts as slow. -/
def SLOW_THRESHOLD : ℚ := 5

/-- State of the metric registry: one total function per metric family
(counters as series-indexed naturals; histograms kept as observation count
and running sum, which is what the claims inspect). Series absent so far
read as zero, matching a freshly created prometheus series. -/
structure Metrics where
  httpRequests : Key3 → Nat
  httpDurationCount : Key3 → Nat
  httpDurationSum : Key3 → ℚ
  lastDurationCount : Key2 → Nat
  lastDurationSum : Key2 → ℚ
  httpErrors : Key3 → Nat
  httpSlow : Key2 → Nat

/-- Registry in which every series reads zero. -/
def zeroMetrics : Metrics :=
  ⟨fun _ => 0, fun _ => 0, fun _ => 0, fun _ => 0, fun _ => 0, fun _ => 0, fun _ => 0⟩

/-- Counter.inc(): bump the series at key k by one, leaving every other
series unchanged. -/
def inc {α : Type} [DecidableEq α] (f : α → Nat) (k : α) : α → Nat :=
  fun k' => if k' = k then f k + 1 else f k'

/-- Histogram.observe() on the running-sum component: add v at key k. -/
def addObs {α : Type} [DecidableEq α] (f : α → ℚ) (k : α) (v : ℚ) : α → ℚ :=
  fun k' => if k' = k then f k + v else f k'

/-- One element of a tuple returned by a handler: either a Python int or a
value of some other type (tagged so distinct non-int values stay distinct). -/
inductive Elem
  | intE (n : Int)
  | nonIntE (tag : String)
deriving DecidableEq

/-- A value returned normally by a handler, as far as wrapped inspects it:
either a tuple of elements, or an object that may or may not expose a
status_code attribute (a Flask Response does; a bare body does not). -/
inductive RespVal
  | tuple (elems : List Elem)
  | obj (statusCode : Option Int)
deriving DecidableEq

/-- A raised Python exception, as far as wrapped inspects it: a werkzeug
HTTPException carrying an optional code attribute, or any other exception
(tagged so distinct exceptions stay distinct). -/
inductive PyErr
  | http (code : Option Int)
  | other (tag : String)
deriving DecidableEq

/-- How the real handler would exit if invoked: return a value or raise. -/
inductive HandlerOutcome
  | returns (r : RespVal)
  | raises (e : PyErr)
deriving DecidableEq

/-- The delay query parameter as the instrumentation observes it: absent
(args.get returns None), present but Python-falsy (empty string), a truthy
string rejected by float(), or a truthy string parsing to the rational q. -/
inductive DelayArg
  | absent
  | falsy
  | unparseable
  | parsed (q : ℚ)
deriving DecidableEq

/-- Status resolved from a normal return (app.py lines 41-48): status starts
at 200; a tuple of length above one whose second element is an int yields
that int; otherwise an exposed status_code attribute yields its value (a
tuple exposes none); otherwise 200 stands. -/
def resolveReturnStatus (r : RespVal) : Int :=
  match r with
  | .tuple elems =>
      match elems.get? 1 with
      | some (.intE n) => n
      | _ => 200
  | .obj (some c) => c
  | .obj none => 200

/-- Status resolved from a raised exception (app.py lines 50-57): an
HTTPException whose code attribute is truthy (not None and not zero) yields
that code verbatim; every other exception yields 500. -/
def resolveErrorStatus (e : PyErr) : Int :=
  match e with
  | .http (some c) => if c = 0 then 500 else c
  | .http none => 500
  | .other _ => 500

/-- Status attributed to a handler exit, combining both resolution paths. -/
def outcomeStatus (h : HandlerOutcome) : Int :=
  match h with
  | .returns r => resolveReturnStatus r
  | .raises e => resolveErrorStatus e

/-- The finally block (app.py lines 59-70): with code = str(status), bump
the request counter and the duration histogram at (method, route, code),
observe the duration into the last-duration histogram at (method, route),
bump the error counter when int(code) >= 500, and bump the slow counter
when the duration reaches SLOW_THRESHOLD. -/
def record (m : Metrics) (method route : String) (status : Int) (duration : ℚ) : Metrics :=
  let code := toString status
  { httpRequests := inc m.httpRequests (method, route, code)
    httpDurationCount := inc m.httpDurationCount (method, route, code)
    httpDurationSum := addObs m.httpDurationSum (method, route, code) duration
    lastDurationCount := inc m.lastDurationCount (method, route)
    lastDurationSum := addObs m.lastDurationSum (method, route) duration
    httpErrors :=
      if 500 ≤ status then inc m.httpErrors (method, route, code) else m.httpErrors
    httpSlow :=
      if SLOW_THRESHOLD ≤ duration then inc m.httpSlow (method, route) else m.httpSlow }

/-- The delay step (app.py lines 30-35): time.sleep(float(delay)) inside a
try/except that swallows every failure. The clock advances by q exactly when
the parameter is a truthy string parsing to a non-negative q; a parse
failure, and the ValueError sleep raises on a negative argument, leave the
clock untouched. -/
def injectorClock (clock : ℚ) (d : DelayArg) : ℚ :=
  match d with
  | .parsed q => if 0 ≤ q then clock + q else clock
  | _ => clock

/-- The body of wrapped (app.py lines 26-70). failArg is the truthiness of
the fail query parameter; h says how the real handler would exit; tHandler
is the wall-clock time the handler call consumes; clock is the time at
request entry. Returns the propagated result (value or re-raised
exception), the registry after the request, and the clock after the
request. When failArg holds, abort(500) raises before the timed section:
the handler is never consulted and no metrics are recorded. -/
def wrapped (method route : String) (d : DelayArg) (failArg : Bool)
    (h : HandlerOutcome) (tHandler clock : ℚ) (m : Metrics) :
    Except PyErr RespVal × Metrics × ℚ :=
  let clock1 := injectorClock clock d
  if failArg then
    (Except.error (PyErr.http (some 500)), m, clock1)
  else
    let start := clock1
    let clock2 := clock1 + tHandler
    let duration := clock2 - start
    let m' := record m method route (outcomeStatus h) duration
    match h with
    | .returns r => (Except.ok r, m', clock2)
    | .raises e => (Except.error e, m', clock2)

/-- An item of the in-memory store: a dict with an id and a data payload. -/
structure Item where
  id : Int
  data : String
deriving DecidableEq

/-- get_item (app.py lines 151-178): the first stored item whose id matches
is jsonified (a Flask Response, hence an object exposing status_code 200);
when no item matches, abort(404) raises an HTTPException with code 404. -/
def get_item (items : List Item) (item_id : Int) : HandlerOutcome :=
  match items.find? (fun it => decide (it.id = item_id)) with
  | some _ => .returns (.obj (some 200))
  | none => .raises (.http (some 404))

/-- n repetitions of the same request against the same (method, route),
threading the registry and the clock from one request to the next. -/
def runN (method route : String) (d : DelayArg) (failArg : Bool)
    (h : HandlerOutcome) (tHandler : ℚ) : Nat → ℚ → Metrics → Metrics
  | 0, _, m => m
  | n + 1, clock, m =>
      let r := wrapped method route d failArg h tHandler clock m
      runN method route d failArg h tHandler n r.2.2 r.2.1

/-- Was the handler going to return (rather than raise)? -/
def HandlerOutcome.propagated (h : HandlerOutcome) : Except PyErr RespVal :=
  match h with
  | .returns r => Except.ok r
  | .raises e => Except.error e

lemma wrapped_fail_eq (method route : String) (d : DelayArg) (h : HandlerOutcome)
    (t clock : ℚ) (m : Metrics) :
    wrapped method route d true h t clock m =
      (Except.error (PyErr.http (some 500)), m, injectorClock clock d) := rfl

lemma wrapped_noFail_eq (method route : String) (d : DelayArg) (h : HandlerOutcome)
    (t clock : ℚ) (m : Metrics) :
    wrapped method route d false h t clock m =
      (h.propagated, record m method route (outcomeStatus h) t,
        injectorClock clock d + t) := by
  cases h <;> simp [wrapped, HandlerOutcome.propagated]

lemma inc_self {α : Type} [DecidableEq α] (f : α → Nat) (k : α) :
    inc f k k = f k + 1 := by simp [inc]

lemma inc_ne {α : Type} [DecidableEq α] (f : α → Nat) (k k' : α) (hk : k' ≠ k) :
    inc f k k' = f k' := by simp [inc, hk]

lemma record_httpRequests (m : Metrics) (method route : String) (status : Int)
    (duration : ℚ) :
    (record m method route status duration).httpRequests =
      inc m.httpRequests (method, route, toString status) := rfl

lemma record_httpErrors (m : Metrics) (method route : String) (status : Int)
    (duration : ℚ) :
    (record m method route status duration).httpErrors =
      if 500 ≤ status then inc m.httpErrors (method, route, toString status)
      else m.httpErrors := rfl

lemma record_httpSlow (m : Metrics) (method route : String) (status : Int)
    (duration : ℚ) :
    (record m method route status duration).httpSlow =
      if SLOW_THRESHOLD ≤ duration then inc m.httpSlow (method, route)
      else m.httpSlow := rfl

lemma runN_requests (method route : String) (d : DelayArg) (h : HandlerOutcome)
    (t : ℚ) (K : Key3) (hK : K = (method, route, toString (outcomeStatus h))) :
    ∀ (n : Nat) (clock : ℚ) (m : Metrics),
      (runN method route d false h t n clock m).httpRequests K =
        m.httpRequests K + n := by
  intro n
  induction n with
  | zero => intro clock m; rfl
  | succ n ih =>
      intro clock m
      show (runN method route d false h t n _ _).httpRequests K = _
      rw [ih]
      rw [wrapped_noFail_eq]
      simp only [record_httpRequests, hK, inc_self]
      omega

/-- C1, counterexample: a request short-circuited by the forced-failure
directive records no metrics at all, because abort(500) fires before the
try/finally that performs the recording. With a truthy fail parameter the
registry is returned unchanged and the request counter shows zero
increments where the claim demands exactly one. -/
theorem C1_counterexample :
    (wrapped "GET" "/items" DelayArg.absent true
        (HandlerOutcome.returns (RespVal.obj none)) 0 0 zeroMetrics).2.1 = zeroMetrics
    ∧ (wrapped "GET" "/items" DelayArg.absent true
        (HandlerOutcome.returns (RespVal.obj none)) 0 0 zeroMetrics).2.1.httpRequests
          ("GET", "/items", "500")
        ≠ zeroMetrics.httpRequests ("GET", "/items", "500") + 1 :=
  ⟨rfl, by decide⟩

/-- C1, amended: for every request that is not short-circuited by the
forced-failure directive, the recording step executes exactly once on every
exit path of the handler (normal return, expected error, unexpected error):
the request counter at the recorded (method, route, code) key rises by
exactly one and every other key is untouched; N repeated successful
requests with consistent outcome code leave the counter at its previous
value plus N. A request short-circuited by the injected failure bypasses
recording entirely, leaving the registry unchanged. -/
theorem C1_exactly_once_recording :
    (∀ (method route : String) (d : DelayArg) (h : HandlerOutcome)
        (t clock : ℚ) (m : Metrics),
        (wrapped method route d false h t clock m).2.1.httpRequests =
          inc m.httpRequests (method, route, toString (outcomeStatus h)))
    ∧ (∀ (method route : String) (d : DelayArg) (h : HandlerOutcome)
        (t clock : ℚ) (m : Metrics),
        (wrapped method route d true h t clock m).2.1 = m)
    ∧ (∀ (method route : String) (d : DelayArg) (r : RespVal) (t : ℚ)
        (n : Nat) (clock : ℚ) (m : Metrics),
        (runN method route d false (HandlerOutcome.returns r) t n clock m).httpRequests
            (method, route, toString (resolveReturnStatus r)) =
          m.httpRequests (method, route, toString (resolveReturnStatus r)) + n) := by
  refine ⟨?_, ?_, ?_⟩
  · intro method route d h t clock m
    rw [wrapped_noFail_eq, record_httpRequests]
  · intro method route d h t clock m
    rfl
  · intro method route d r t n clock m
    exact runN_requests method route d (HandlerOutcome.returns r) t _ rfl n clock m

/-- C2, counterexample: a request with a truthy fail parameter leaves both
the request counter and the error counter at (GET, /items, 500) unchanged,
contradicting the claimed increment of both by one; abort(500) is raised
before the instrumented section, so the finally block never runs. -/
theorem C2_counterexample :
    (wrapped "GET" "/items" DelayArg.absent true
        (HandlerOutcome.returns (RespVal.tuple [Elem.nonIntE "body", Elem.intE 200]))
        0 0 zeroMetrics).2.1.httpRequests ("GET", "/items", "500")
      ≠ zeroMetrics.httpRequests ("GET", "/items", "500") + 1
    ∧ (wrapped "GET" "/items" DelayArg.absent true
        (HandlerOutcome.returns (RespVal.tuple [Elem.nonIntE "body", Elem.intE 200]))
        0 0 zeroMetrics).2.1.httpErrors ("GET", "/items", "500")
      ≠ zeroMetrics.httpErrors ("GET", "/items", "500") + 1 :=
  ⟨by decide, by decide⟩

/-- C2, amended: a request carrying the forced-failure directive never
invokes the real handler and resolves to a raised HTTP error with code 500
regardless of what the handler would have returned, but no metrics are
recorded for it: the registry, including the request counter and the error
counter, is left exactly as it was. -/
theorem C2_forced_failure_short_circuits :
    ∀ (method route : String) (d : DelayArg) (h : HandlerOutcome)
      (t clock : ℚ) (m : Metrics),
      wrapped method route d true h t clock m =
        (Except.error (PyErr.http (some 500)), m, injectorClock clock d) := by
  intro method route d h t clock m
  rfl

/-- C3, counterexample: a request with delay parsing to 6.0 seconds whose
handler itself finishes instantly does not increment the slow-request
counter, contradicting the claimed increment by one: the start time is read
only after the injected sleep, so the injected delay is excluded from the
measured elapsed time. -/
theorem C3_counterexample :
    (wrapped "GET" "/items" (DelayArg.parsed 6) false
        (HandlerOutcome.returns (RespVal.obj none)) 0 0 zeroMetrics).2.1.httpSlow
        ("GET", "/items")
      ≠ zeroMetrics.httpSlow ("GET", "/items") + 1 := by
  rw [wrapped_noFail_eq, record_httpSlow]
  norm_num [SLOW_THRESHOLD, zeroMetrics]

/-- C3, amended: timing starts after the delay step of the Simulation
Injector, so the injected artificial delay is excluded from the measured
elapsed time: whatever delay q was requested, the last-duration histogram
observes exactly the handler elapsed time t, and the slow-request counter
for (method, route) is bumped precisely when t itself reaches the slow
threshold. In particular a request with delay = 6.0 seconds and a fast
handler leaves the slow-request counter unchanged, just as one with
delay = 4.0 seconds does. -/
theorem C3_timing_starts_after_delay :
    ∀ (method route : String) (q : ℚ) (h : HandlerOutcome)
      (t clock : ℚ) (m : Metrics),
      ((wrapped method route (DelayArg.parsed q) false h t clock m).2.1.lastDurationSum =
          addObs m.lastDurationSum (method, route) t)
      ∧ ((wrapped method route (DelayArg.parsed q) false h t clock m).2.1.httpSlow =
          if SLOW_THRESHOLD ≤ t then inc m.httpSlow (method, route) else m.httpSlow) := by
  intro method route q h t clock m
  rw [wrapped_noFail_eq]
  exact ⟨rfl, rfl⟩

/-- C4: the status resolved from a raised error is the code carried by a
recognized HTTP-style error whenever that code is truthy (an explicit
not-found signal resolves to 404 verbatim), and 500 for any other raised
error: a non-HTTP exception, or an HTTPException without a code. -/
theorem C4_error_status_resolution :
    (∀ c : Int, c ≠ 0 → resolveErrorStatus (PyErr.http (some c)) = c)
    ∧ resolveErrorStatus (PyErr.http (some 404)) = 404
    ∧ (∀ tag, resolveErrorStatus (PyErr.other tag) = 500)
    ∧ resolveErrorStatus (PyErr.http none) = 500 := by
  refine ⟨?_, by decide, fun _ => rfl, rfl⟩
  intro c hc
  simp [resolveErrorStatus, hc]

/-- C4, witness: the not-found signal resolves to 404 verbatim. -/
theorem C4_witness : resolveErrorStatus (PyErr.http (some 404)) = 404 :=
  C4_error_status_resolution.1 404 (by decide)

/-- C5: the status resolved from a normal return is the second element of a
returned tuple when that element is an integer; otherwise the value of the
exposed status_code attribute when the value has one; otherwise the default
200 — covering tuples whose second element is not an integer, tuples that
are too short, and bare values with no status_code. -/
theorem C5_return_status_resolution :
    (∀ (b : Elem) (n : Int) (rest : List Elem),
        resolveReturnStatus (RespVal.tuple (b :: Elem.intE n :: rest)) = n)
    ∧ (∀ c : Int, resolveReturnStatus (RespVal.obj (some c)) = c)
    ∧ resolveReturnStatus (RespVal.obj none) = 200
    ∧ (∀ (b : Elem) (s : String) (rest : List Elem),
        resolveReturnStatus (RespVal.tuple (b :: Elem.nonIntE s :: rest)) = 200)
    ∧ (∀ b : Elem, resolveReturnStatus (RespVal.tuple [b]) = 200)
    ∧ resolveReturnStatus (RespVal.tuple []) = 200 :=
  ⟨fun _ _ _ => rfl, fun _ => rfl, rfl, fun _ _ _ => rfl, fun _ => rfl, rfl⟩

/-- C6: when the handler raises, wrapped re-raises exactly the same error
unchanged after the metrics for the resolved code have been recorded; when
the handler returns normally, wrapped returns its result unchanged. The
interceptor never swallows a handler error. -/
theorem C6_propagation_unchanged :
    (∀ (method route : String) (d : DelayArg) (e : PyErr)
        (t clock : ℚ) (m : Metrics),
        (wrapped method route d false (HandlerOutcome.raises e) t clock m).1 =
          Except.error e
        ∧ (wrapped method route d false (HandlerOutcome.raises e) t clock m).2.1 =
            record m method route (resolveErrorStatus e) t)
    ∧ (∀ (method route : String) (d : DelayArg) (r : RespVal)
        (t clock : ℚ) (m : Metrics),
        (wrapped method route d false (HandlerOutcome.returns r) t clock m).1 =
          Except.ok r) := by
  constructor
  · intro method route d e t clock m
    rw [wrapped_noFail_eq]
    exact ⟨rfl, rfl⟩
  · intro method route d r t clock m
    rw [wrapped_noFail_eq]
    rfl

/-- C7: the slow threshold is the fixed constant 5.0 seconds, and the
recording step bumps the slow-request counter at (method, route) by exactly
one when the measured duration reaches the threshold, while a duration
strictly below it leaves the slow-request counter entirely unchanged. -/
theorem C7_slow_threshold_discipline :
    SLOW_THRESHOLD = 5
    ∧ (∀ (m : Metrics) (method route : String) (status : Int) (dur : ℚ),
        SLOW_THRESHOLD ≤ dur →
          (record m method route status dur).httpSlow (method, route) =
            m.httpSlow (method, route) + 1)
    ∧ (∀ (m : Metrics) (method route : String) (status : Int) (dur : ℚ),
        dur < SLOW_THRESHOLD →
          (record m method route status dur).httpSlow = m.httpSlow) := by
  refine ⟨rfl, ?_, ?_⟩
  · intro m method route status dur hdur
    rw [record_httpSlow, if_pos hdur, inc_self]
  · intro m method route status dur hdur
    rw [record_httpSlow, if_neg (not_le.mpr hdur)]

/-- C7, witness: a duration of exactly 5 seconds bumps the slow counter,
and a duration of 4 seconds leaves it unchanged. -/
theorem C7_witness :
    (record zeroMetrics "GET" "/items" 200 5).httpSlow ("GET", "/items") =
        zeroMetrics.httpSlow ("GET", "/items") + 1
    ∧ (record zeroMetrics "GET" "/items" 200 4).httpSlow = zeroMetrics.httpSlow :=
  ⟨C7_slow_threshold_discipline.2.1 zeroMetrics "GET" "/items" 200 5
      (by norm_num [SLOW_THRESHOLD]),
    C7_slow_threshold_discipline.2.2 zeroMetrics "GET" "/items" 200 4
      (by norm_num [SLOW_THRESHOLD])⟩

/-- C8: a recorded request with outcome code in [400, 499] bumps the
request counter at (method, route, code) but leaves the error counter
entirely unchanged; the error counter is bumped exactly when the code is at
least 500, and a code below 500 never touches it. In the concrete scenario,
requesting an item whose identifier is absent from the store raises the
404 signal, the request counter picks up (method, route, 404), and the
error counter stays as it was. -/
theorem C8_error_counter_discipline :
    (∀ (m : Metrics) (method route : String) (status : Int) (dur : ℚ),
        400 ≤ status → status ≤ 499 →
          (record m method route status dur).httpRequests
              (method, route, toString status) =
              m.httpRequests (method, route, toString status) + 1
          ∧ (record m method route status dur).httpErrors = m.httpErrors)
    ∧ (∀ (m : Metrics) (method route : String) (status : Int) (dur : ℚ),
        500 ≤ status →
          (record m method route status dur).httpErrors
              (method, route, toString status) =
            m.httpErrors (method, route, toString status) + 1)
    ∧ (∀ (m : Metrics) (method route : String) (status : Int) (dur : ℚ),
        status < 500 →
          (record m method route status dur).httpErrors = m.httpErrors)
    ∧ (∀ (items : List Item) (iid : Int),
        items.find? (fun it => decide (it.id = iid)) = none →
          get_item items iid = HandlerOutcome.raises (PyErr.http (some 404))
          ∧ ∀ (method route : String) (d : DelayArg) (t clock : ℚ) (m : Metrics),
              (wrapped method route d false (get_item items iid) t clock m).2.1.httpRequests =
                  inc m.httpRequests (method, route, "404")
              ∧ (wrapped method route d false (get_item items iid) t clock m).2.1.httpErrors =
                  m.httpErrors) := by
  refine ⟨?_, ?_, ?_, ?_⟩
  · intro m method route status dur h4 h4'
    refine ⟨by rw [record_httpRequests, inc_self], ?_⟩
    rw [record_httpErrors, if_neg (by omega)]
  · intro m method route status dur h5
    rw [record_httpErrors, if_pos h5, inc_self]
  · intro m method route status dur h5
    rw [record_httpErrors, if_neg (not_le.mpr h5)]
  · intro items iid hfind
    have hgi : get_item items iid = HandlerOutcome.raises (PyErr.http (some 404)) := by
      unfold get_item
      rw [hfind]
    refine ⟨hgi, ?_⟩
    intro method route d t clock m
    rw [hgi, wrapped_noFail_eq]
    exact ⟨rfl, by rw [record_httpErrors, if_neg (by decide)]⟩

/-- C8, witness: recording code 404 bumps the request counter by one and
leaves the error counter unchanged, and looking up identifier 1 in the
empty store yields the 404 signal. -/
theorem C8_witness :
    (record zeroMetrics "GET" "/items/<id>" 404 0).httpRequests
        ("GET", "/items/<id>", toString (404 : Int)) =
        zeroMetrics.httpRequests ("GET", "/items/<id>", toString (404 : Int)) + 1
    ∧ (record zeroMetrics "GET" "/items/<id>" 404 0).httpErrors = zeroMetrics.httpErrors
    ∧ get_item [] 1 = HandlerOutcome.raises (PyErr.http (some 404)) :=
  ⟨(C8_error_counter_discipline.1 zeroMetrics "GET" "/items/<id>" 404 0
      (by decide) (by decide)).1,
    (C8_error_counter_discipline.1 zeroMetrics "GET" "/items/<id>" 404 0
      (by decide) (by decide)).2,
    (C8_error_counter_discipline.2.2.2 [] 1 rfl).1⟩

/-- C9: a malformed delay parameter (a truthy string rejected by float) and
a present-but-falsy one are swallowed: the request behaves exactly as if
the delay parameter were absent — same propagated result, same registry,
same clock — and, in particular, a returning handler still has its value
delivered to the caller, so the parse failure is never surfaced. -/
theorem C9_malformed_delay_ignored :
    ∀ (method route : String) (fl : Bool) (h : HandlerOutcome)
      (t clock : ℚ) (m : Metrics),
      (wrapped method route DelayArg.unparseable fl h t clock m =
          wrapped method route DelayArg.absent fl h t clock m)
      ∧ (wrapped method route DelayArg.falsy fl h t clock m =
          wrapped method route DelayArg.absent fl h t clock m)
      ∧ (∀ r : RespVal,
          (wrapped method route DelayArg.unparseable false
              (HandlerOutcome.returns r) t clock m).1 = Except.ok r) := by
  intro method route fl h t clock m
  refine ⟨rfl, rfl, fun r => ?_⟩
  rw [wrapped_noFail_eq]
  rfl

/-- C10: a delay parameter parsing to a negative number of seconds makes
time.sleep raise, the except clause swallows the error inside the injector,
and the request behaves exactly like one with no delay parameter at all:
identical propagated result, registry and clock, with the handler still run
and the metrics for its resolved outcome still recorded once. -/
theorem C10_negative_delay_ignored (q : ℚ) (hq : q < 0) :
    ∀ (method route : String) (fl : Bool) (h : HandlerOutcome)
      (t clock : ℚ) (m : Metrics),
      (wrapped method route (DelayArg.parsed q) fl h t clock m =
          wrapped method route DelayArg.absent fl h t clock m)
      ∧ (wrapped method route (DelayArg.parsed q) false h t clock m).2.1 =
          record m method route (outcomeStatus h) t := by
  intro method route fl h t clock m
  have hcl : injectorClock clock (DelayArg.parsed q) = clock := by
    simp [injectorClock, not_le.mpr hq]
  constructor
  · cases fl
    · rw [wrapped_noFail_eq, wrapped_noFail_eq, hcl]
      rfl
    · rw [wrapped_fail_eq, wrapped_fail_eq, hcl]
      rfl
  · rw [wrapped_noFail_eq]

/-- C10, witness: a delay of minus one second behaves exactly like an
absent delay. -/
theorem C10_witness :
    wrapped "GET" "/items" (DelayArg.parsed (-1)) false
        (HandlerOutcome.returns (RespVal.obj none)) 0 0 zeroMetrics =
      wrapped "GET" "/items" DelayArg.absent false
        (HandlerOutcome.returns (RespVal.obj none)) 0 0 zeroMetrics :=
  (C10_negative_delay_ignored (-1) (by norm_num) "GET" "/items" false
      (HandlerOutcome.returns (RespVal.obj none)) 0 0 zeroMetrics).1

end FlaskApp
